import Mathlib

/-!
Verification development for the token-lifecycle and OAuth subsystem of
ioBroker.spotify-premium.

The definitions below are a shallow embedding of `src/lib/spotifyClient.js`
(the `SpotifyClient` class) and of the OAuth portions of `src/main.js`
(`oauthStart`, `handleOAuthRequest`, `handleOAuthCallback`).  JavaScript
numbers appearing in the modelled code paths are integers except for the
possibility of `NaN`; we therefore model a JS numeric result as
`Option Int`, with `none` standing for `NaN`.  Network responses are passed
to the embedded functions as explicit data (the JS code observes them
through `fetch`), and mutation of `this` is modelled by returning an
updated state record.
-/

namespace SpotifyPremium

/-- Decimal digit accumulator: `some` of the value when every character is
a digit, `none` otherwise. -/
def parseDigitsAux : List Char → Nat → Option Nat
  | [], acc => some acc
  | c :: cs, acc =>
    if c.isDigit then parseDigitsAux cs (acc * 10 + (c.toNat - 48)) else none

/-- A non-empty all-digit character list as a natural number. -/
def parseDigits : List Char → Option Nat
  | [] => none
  | c :: cs => parseDigitsAux (c :: cs) 0

/-- Result of JavaScript `Number(s)` on a string, restricted to the integer
literals that occur in the modelled code paths: the empty string converts to
`0`, an optionally negated decimal literal to its value, anything else to
`NaN` (`none`). -/
def jsNumberOfString (s : String) : Option Int :=
  match s.data with
  | [] => some 0
  | '-' :: cs => (parseDigits cs).map (fun n => -(n : Int))
  | cs => (parseDigits cs).map (fun n => (n : Int))

/-- A JSON field value as the modelled code observes it: absent
(`undefined`), a string, or an integer number. -/
inductive JsonVal where
  | missing : JsonVal
  | str : String → JsonVal
  | num : Int → JsonVal
deriving DecidableEq, Repr

/-- JavaScript `Number(v)` on a JSON field value (`none` = `NaN`):
`Number(undefined) = NaN`, numbers convert to themselves, strings via
`jsNumberOfString`. -/
def jsNumber : JsonVal → Option Int
  | .missing => none
  | .num n => some n
  | .str s => jsNumberOfString s

/-- JavaScript truthiness of an optional string value (`none` = absent /
`undefined`, which is falsy, as is the empty string). -/
def strTruthy : Option String → Bool
  | none => false
  | some s => s ≠ ""

/-- Mutable state of a `SpotifyClient` instance
(`src/lib/spotifyClient.js`, constructor lines 31–40).  `refreshInFlight`
holds the identifier of the pending refresh promise when one exists. -/
structure ClientState where
  clientId : String
  clientSecret : String
  refreshToken : String
  accessToken : String
  expiresAt : Int
  refreshInFlight : Option Nat
deriving DecidableEq, Repr

/-- Body of a response from the provider token endpoint, as observed after
`JSON.parse`, together with the HTTP-level `ok` flag and status
(`res.ok`/`res.status`). -/
structure TokenResp where
  ok : Bool
  status : Nat
  access_token : String
  expires_in : JsonVal
  refresh_token : Option String
deriving DecidableEq, Repr

/-- `SpotifyClient.isAccessTokenValid` (spotifyClient.js lines 46–48):
`this.accessToken && Date.now() < (this.expiresAt - 60_000)`, read as a
boolean. -/
def isAccessTokenValid (now : Int) (s : ClientState) : Bool :=
  (s.accessToken ≠ "" : Bool) && decide (now < s.expiresAt - 60000)

/-- The `expires_in` handling of `refreshAccessToken` (line 113):
`Number(data.expires_in) || 3600` — `NaN` and `0` are falsy, so both fall
back to `3600`. -/
def expiresInOrDefault (v : JsonVal) : Int :=
  match jsNumber v with
  | none => 3600
  | some n => if n = 0 then 3600 else n

/-- `SpotifyClient.refreshAccessToken` (spotifyClient.js lines 70–122),
with the token-endpoint response supplied as data.  Returns the state after
the call together with the thrown error message, if any.  The two throw
sites (no refresh token configured, line 73; non-2xx response, line 107)
occur before any field assignment, so on those paths the state is returned
unchanged.  On success the method assigns `accessToken` and `expiresAt`
unconditionally and `refreshToken` only when the response carries a truthy
(non-empty) `refresh_token` (lines 112–119). -/
def refreshAccessToken (now : Int) (s : ClientState) (resp : TokenResp) :
    ClientState × Option String :=
  if s.refreshToken = "" then
    (s, some "No refreshToken configured")
  else if resp.ok = false then
    (s, some ("Spotify token refresh failed (" ++ toString resp.status ++ ")"))
  else
    let expiresInSec := expiresInOrDefault resp.expires_in
    ({ s with
        accessToken := resp.access_token
        expiresAt := now + expiresInSec * 1000
        refreshToken :=
          match resp.refresh_token with
          | some t => if t = "" then s.refreshToken else t
          | none => s.refreshToken },
      none)

/-- Instrumented world for the singleflight analysis: the client state plus
a count of token-endpoint requests issued and a supply of fresh promise
identifiers. -/
structure World where
  client : ClientState
  exchangeCount : Nat
  nextId : Nat
deriving DecidableEq, Repr

/-- The synchronous prefix of `SpotifyClient.ensureAccessToken`
(spotifyClient.js lines 50–63), which under the JavaScript run-to-completion
model executes atomically for each caller: if the token is valid, return
without awaiting anything (`none`); otherwise, if a refresh promise is
already stored in `refreshInFlight`, await that same promise; otherwise call
`refreshAccessToken()` — whose synchronous prefix issues the token-endpoint
`fetch` exactly when a refresh token is configured — store the resulting
promise in `refreshInFlight`, and await it.  The `.catch`/`.finally`
continuation that later clears the marker runs only when the promise
settles (modelled by `settleRefresh`). -/
def ensureStep (now : Int) (w : World) : World × Option Nat :=
  if isAccessTokenValid now w.client then
    (w, none)
  else
    match w.client.refreshInFlight with
    | some p => (w, some p)
    | none =>
      let p := w.nextId
      let fetches := if w.client.refreshToken = "" then 0 else 1
      ({ client := { w.client with refreshInFlight := some p }
         exchangeCount := w.exchangeCount + fetches
         nextId := p + 1 },
        some p)

/-- `n` callers invoking `ensureAccessToken` within one synchronous batch
(before the in-flight refresh can settle).  Returns the final world and, per
caller, the promise that caller awaits (`none` = returned immediately). -/
def ensureN (now : Int) : Nat → World → World × List (Option Nat)
  | 0, w => (w, [])
  | n + 1, w =>
    let (w1, p) := ensureStep now w
    let (w2, ps) := ensureN now n w1
    (w2, p :: ps)

/-- Settlement of the in-flight refresh: the awaited `refreshAccessToken`
call completes with the given response, and the `.finally` continuation
(spotifyClient.js lines 58–60) clears `refreshInFlight` unconditionally.
Every caller that awaited the in-flight promise observes the returned
outcome (`none` = success, `some e` = the rejection `e`, re-thrown
unchanged by the `.catch` on lines 55–57). -/
def settleRefresh (now : Int) (resp : TokenResp) (w : World) :
    World × Option String :=
  let (c, err) := refreshAccessToken now w.client resp
  ({ w with client := { c with refreshInFlight := none } }, err)

/-- A response to one Web API request, as the invoker observes it: HTTP
status, the `retry-after` header when present, and the response text (later
`JSON.parse`d; we keep the raw text, which suffices for the invoker's
control flow). -/
structure ApiResp where
  status : Nat
  retryAfter : Option String
  body : Option String
deriving DecidableEq, Repr

/-- The delay argument computed by the 429 branch of `SpotifyClient.api`
(spotifyClient.js lines 150–155), in milliseconds, as a JS number
(`none` = `NaN`): `Number(res.headers.get(..) || 1)`, then
`Math.max(1, retryAfter) * 1000`.  An absent header (`headers.get` returns
`null`) and an empty header are both falsy and fall back to the string
`"1"`; a non-numeric header yields `NaN`, which `Math.max` propagates. -/
def retryDelayMs (h : Option String) : Option Int :=
  let raw := match h with
    | none => "1"
    | some s => if s = "" then "1" else s
  (jsNumberOfString raw).map (fun v => max 1 v * 1000)

/-- Outcome of an invocation of `SpotifyClient.api`.  `outOfScript` is a
model artifact: the supplied response script was exhausted (the real
recursion would simply continue issuing requests). -/
inductive ApiResult where
  | success : Option String → ApiResult
  | apiError : Nat → ApiResult
  | refreshFailed : String → ApiResult
  | outOfScript : ApiResult
deriving DecidableEq, Repr

/-- Observable trace of one `api` invocation: its outcome, the number of
Web API requests issued, the number of forced token refreshes performed on
the 401 path, and the delay arguments passed to the timer on the 429 path
(in order). -/
structure ApiTrace where
  result : ApiResult
  requests : Nat
  refreshes : Nat
  waitsMs : List (Option Int)
deriving DecidableEq, Repr

/-- `SpotifyClient.api` (spotifyClient.js lines 127–178), driven by a
script: each recursive invocation issues one request and consumes the head
of `script`; each forced refresh on the 401 path consumes the head of
`refreshScript`.  The leading `ensureAccessToken()` (line 128) is modelled
by `ensureStep` separately and is a no-op while the token is valid.  The
branch order follows the source: status 401 → `refreshAccessToken()` then
re-invoke (lines 145–148, no retry bound and no special error type); status
429 → compute the retry delay, wait, re-invoke (lines 150–155); status
204 → return `null` (lines 157–159); then parse the text and either throw
an API error carrying the status for non-2xx (lines 169–175) or return the
data. -/
def api (now : Int) :
    List ApiResp → List TokenResp → ClientState → ApiTrace
  | [], _, _ => ⟨.outOfScript, 0, 0, []⟩
  | r :: rest, refreshScript, s =>
    if r.status = 401 then
      match refreshScript with
      | [] => ⟨.outOfScript, 1, 0, []⟩
      | tr :: trs =>
        match refreshAccessToken now s tr with
        | (_, some e) => ⟨.refreshFailed e, 1, 1, []⟩
        | (s1, none) =>
          let t := api now rest trs s1
          ⟨t.result, t.requests + 1, t.refreshes + 1, t.waitsMs⟩
    else if r.status = 429 then
      let t := api now rest refreshScript s
      ⟨t.result, t.requests + 1, t.refreshes, retryDelayMs r.retryAfter :: t.waitsMs⟩
    else if r.status = 204 then
      ⟨.success none, 1, 0, []⟩
    else if 200 ≤ r.status ∧ r.status ≤ 299 then
      ⟨.success r.body, 1, 0, []⟩
    else
      ⟨.apiError r.status, 1, 0, []⟩

/-- A 401 response (no relevant headers or body). -/
def resp401 : ApiResp := ⟨401, none, none⟩

/-- Lower-case hex digit for a value below 16 (as produced by
`Buffer.toString(hex)`). -/
def hexChar (n : Nat) : Char :=
  if n < 10 then Char.ofNat (48 + n) else Char.ofNat (87 + n)

/-- Hex encoding of a byte list, two digits per byte. -/
def bytesToHexChars : List Nat → List Char
  | [] => []
  | b :: bs => hexChar (b / 16 % 16) :: hexChar (b % 16) :: bytesToHexChars bs

/-- `buf.toString(hex)` for a byte buffer. -/
def bytesToHex (bs : List Nat) : String :=
  String.mk (bytesToHexChars bs)

/-- The pending-authorization record `this.oauthFlow` created by
`oauthStart` (main.js lines 360–367). -/
structure OAuthFlow where
  state : String
  expiresAt : Int
  clientId : String
  clientSecret : String
  redirectUri : String
  callbackPath : String
deriving DecidableEq, Repr

/-- The fixed scopes requested by `oauthStart` (main.js lines 370–374). -/
def oauthScopes : List String :=
  ["user-read-playback-state", "user-read-currently-playing",
   "user-modify-playback-state"]

/-- `oauthStart` (main.js lines 308–388), with the redirect URI supplied
already parsed (its string form and its path) and the 16 random bytes of
`crypto.randomBytes(16)` supplied as `stateBytes`.  The inputs are the
already-trimmed credential strings; the emptiness checks are those of lines
318–323 (the further URL-shape and port checks of lines 325–345 concern the
platform URL parser and the callback-server configuration and are outside
this model).  On success it returns the new pending flow — `state` is the
hex encoding of the random bytes, `expiresAt` is `now` plus ten minutes —
together with the query parameters of the returned authorization URL in
source order (lines 376–383); the URL is
`https://accounts.spotify.com/authorize?` followed by their standard
form-encoding.  No PKCE material is generated anywhere in the function. -/
def oauthStart (now : Int) (stateBytes : List Nat)
    (clientId clientSecret redirectUri callbackPath : String) :
    Except String (OAuthFlow × List (String × String)) :=
  if clientId = "" ∨ clientSecret = "" then
    .error "Bitte Spotify Client ID und Client Secret eintragen und speichern."
  else if redirectUri = "" then
    .error "Bitte Redirect URI (Callback URL) eintragen und speichern."
  else
    let state := bytesToHex stateBytes
    let flow : OAuthFlow :=
      { state := state
        expiresAt := now + 10 * 60 * 1000
        clientId := clientId
        clientSecret := clientSecret
        redirectUri := redirectUri
        callbackPath := callbackPath }
    let params := [("response_type", "code"),
                   ("client_id", clientId),
                   ("redirect_uri", redirectUri),
                   ("scope", String.intercalate " " oauthScopes),
                   ("state", state),
                   ("show_dialog", "true")]
    .ok (flow, params)

/-- The assignment `this.oauthFlow = { ... }` performed by a successful
`oauthStart` (main.js line 360): the single pending-flow slot is
overwritten; a failed start leaves it untouched. -/
def oauthFlowAfterStart (prev : Option OAuthFlow)
    (r : Except String (OAuthFlow × List (String × String))) :
    Option OAuthFlow :=
  match r with
  | .ok (f, _) => some f
  | .error _ => prev

/-- Outcome of `handleOAuthCallback` up to and including the state check. -/
inductive CbOutcome where
  | providerError : CbOutcome
  | invalidCallback : CbOutcome
  | noSession : CbOutcome
  | sessionExpired : CbOutcome
  | stateMismatch : CbOutcome
  | proceed : CbOutcome
deriving DecidableEq, Repr

/-- The HTTP status written for each validation outcome of
`handleOAuthCallback`; the `proceed` path's status (200 or 500) depends on
the subsequent code exchange, which is outside this model. -/
def cbStatus : CbOutcome → Option Nat
  | .providerError => some 400
  | .invalidCallback => some 400
  | .noSession => some 400
  | .sessionExpired => some 400
  | .stateMismatch => some 400
  | .proceed => none

/-- The validation prefix of `handleOAuthCallback` (main.js lines
626–686), with the query parameters supplied as data (`none` = parameter
absent).  Checks in source order: a truthy `error` parameter (line 631);
missing/empty `code` or `state` (line 643); no pending flow or flow with
empty state (line 654); expiry — strict `Date.now() > expiresAt`, which
also clears the pending flow (lines 665–666); state mismatch against the
single stored flow (line 677).  Passing all checks reaches the token
exchange (`proceed`), which is outside this model.  Returns the outcome and
the pending-flow slot after the check. -/
def handleOAuthCallback (now : Int) (flow? : Option OAuthFlow)
    (error? code? state? : Option String) : CbOutcome × Option OAuthFlow :=
  if strTruthy error? then
    (.providerError, flow?)
  else if strTruthy code? = false ∨ strTruthy state? = false then
    (.invalidCallback, flow?)
  else
    match flow? with
    | none => (.noSession, none)
    | some flow =>
      if flow.state = "" then
        (.noSession, some flow)
      else if now > flow.expiresAt then
        (.sessionExpired, none)
      else if state?.getD "" ≠ flow.state then
        (.stateMismatch, some flow)
      else
        (.proceed, some flow)

/-- What the OAuth callback server replied with. -/
inductive ReqOutcome where
  | methodNotAllowed : ReqOutcome
  | infoPage : ReqOutcome
  | callback : CbOutcome → ReqOutcome
deriving DecidableEq, Repr

/-- ASCII upper-casing of a character (method names are ASCII). -/
def asciiUpper (c : Char) : Char :=
  if c.isLower then Char.ofNat (c.toNat - 32) else c

/-- ASCII upper-casing of a string, modelling
`String.prototype.toUpperCase` on the ASCII method names it is applied
to. -/
def asciiUpperStr (s : String) : String :=
  String.mk (s.data.map asciiUpper)

/-- Method normalisation of `handleOAuthRequest` (main.js line 599):
`(req.method || GET).toUpperCase()` — an absent or empty method becomes
`GET`. -/
def normalizeMethod (method : Option String) : String :=
  asciiUpperStr (match method with
    | none => "GET"
    | some s => if s = "" then "GET" else s)

/-- The effective callback path (main.js line 608):
`this.oauthServerInfo?.callbackPath || /callback`. -/
def effectiveCbPath (p : Option String) : String :=
  match p with
  | none => "/callback"
  | some s => if s = "" then "/callback" else s

/-- `handleOAuthRequest` (main.js lines 598–624): any request whose
normalised method is not GET is answered with 405 `Method Not Allowed`; a
GET whose path equals the configured callback path is delegated to
`handleOAuthCallback`; any other GET is answered with the 200 informational
page.  Returns the reply, its HTTP status (`none` only on the callback
`proceed` path, whose status depends on the exchange), and the
pending-flow slot afterwards. -/
def handleOAuthRequest (now : Int) (serverCallbackPath : Option String)
    (flow? : Option OAuthFlow) (method : Option String) (path : String)
    (error? code? state? : Option String) :
    ReqOutcome × Option Nat × Option OAuthFlow :=
  if normalizeMethod method ≠ "GET" then
    (.methodNotAllowed, some 405, flow?)
  else if path = effectiveCbPath serverCallbackPath then
    let (o, f) := handleOAuthCallback now flow? error? code? state?
    (.callback o, cbStatus o, f)
  else
    (.infoPage, some 200, flow?)

/-- The query-parameter list of a successful `oauthStart` result (empty
list on failure). -/
def oauthStartParams
    (r : Except String (OAuthFlow × List (String × String))) :
    List (String × String) :=
  match r with
  | .ok (_, ps) => ps
  | .error _ => []

/-! Concrete fixtures used to evaluate the theorems below on explicit
inputs. -/

/-- A client with a configured refresh token and no cached access token. -/
def clientFx : ClientState :=
  { clientId := "cid", clientSecret := "sec", refreshToken := "rt"
    accessToken := "", expiresAt := 0, refreshInFlight := none }

/-- A client holding a previously obtained token set. -/
def clientTokFx : ClientState :=
  { clientId := "cid", clientSecret := "sec", refreshToken := "rt"
    accessToken := "at0", expiresAt := 1000, refreshInFlight := none }

/-- Instrumented world around `clientFx`. -/
def worldFx : World :=
  { client := clientFx, exchangeCount := 0, nextId := 5 }

/-- A successful token-endpoint response that rotates the refresh token. -/
def tokRespRotFx : TokenResp :=
  { ok := true, status := 200, access_token := "at1"
    expires_in := .num 3600, refresh_token := some "rt2" }

/-- A successful token-endpoint response without a `refresh_token` field. -/
def tokRespOmitFx : TokenResp :=
  { ok := true, status := 200, access_token := "at1"
    expires_in := .num 3600, refresh_token := none }

/-- A successful token-endpoint response without an `expires_in` field. -/
def tokRespNoExpFx : TokenResp :=
  { ok := true, status := 200, access_token := "at1"
    expires_in := .missing, refresh_token := none }

/-- A failed (HTTP 400) token-endpoint response. -/
def tokRespFailFx : TokenResp :=
  { ok := false, status := 400, access_token := ""
    expires_in := .missing, refresh_token := none }

/-- A 200 API response with a body. -/
def resp200Fx : ApiResp := ⟨200, none, some "payload"⟩

/-- A 429 API response with a non-numeric `retry-after` header. -/
def resp429BadFx : ApiResp := ⟨429, some "abc", none⟩

/-- A 429 API response with `retry-after: 3`. -/
def resp429Fx : ApiResp := ⟨429, some "3", none⟩

/-- Instrumented world around `clientTokFx` with a refresh in flight. -/
def worldTokFx : World :=
  { client := { clientTokFx with refreshInFlight := some 7 }
    exchangeCount := 1, nextId := 8 }

/-- The flow slot after a successful `oauthStart` result (`none` on
failure). -/
def oauthStartFlow
    (r : Except String (OAuthFlow × List (String × String))) :
    Option OAuthFlow :=
  match r with
  | .ok (f, _) => some f
  | .error _ => none

/-- Sixteen random bytes as used for the first `oauthStart` fixture. -/
def bytesAFx : List Nat := List.replicate 16 170

/-- Sixteen random bytes for the second `oauthStart` fixture. -/
def bytesBFx : List Nat := List.replicate 16 187

/-- The pending flow after two successive `oauthStart` calls (the second
overwrites the first). -/
def flowAfterTwoStartsFx : Option OAuthFlow :=
  oauthFlowAfterStart
    (oauthFlowAfterStart none
      (oauthStart 0 bytesAFx "cid" "sec" "https://host:8888/callback" "/callback"))
    (oauthStart 1000 bytesBFx "cid" "sec" "https://host:8888/callback" "/callback")

/-! Helper lemmas. -/

/-- On a configured refresh token and a 2xx response, `refreshAccessToken`
succeeds and performs exactly the assignments of lines 112–119. -/
theorem refreshAccessToken_ok_eq (now : Int) (s : ClientState)
    (tr : TokenResp) (hs : s.refreshToken ≠ "") (htr : tr.ok = true) :
    refreshAccessToken now s tr =
      ({ s with
          accessToken := tr.access_token
          expiresAt := now + expiresInOrDefault tr.expires_in * 1000
          refreshToken :=
            match tr.refresh_token with
            | some t => if t = "" then s.refreshToken else t
            | none => s.refreshToken },
        none) := by
  simp [refreshAccessToken, hs, htr]

/-- A successful refresh never empties the stored refresh token. -/
theorem refreshAccessToken_keeps_token_nonempty (now : Int)
    (s : ClientState) (tr : TokenResp) (hs : s.refreshToken ≠ "")
    (htr : tr.ok = true) :
    (refreshAccessToken now s tr).1.refreshToken ≠ "" := by
  rw [refreshAccessToken_ok_eq now s tr hs htr]
  cases h : tr.refresh_token with
  | none => simpa using hs
  | some t =>
    by_cases ht : t = "" <;> simp [ht, hs]

/-- Boolean reading of `isAccessTokenValid`. -/
theorem isAccessTokenValid_iff (now : Int) (s : ClientState) :
    isAccessTokenValid now s = true ↔
      s.accessToken ≠ "" ∧ now < s.expiresAt - 60000 := by
  simp [isAccessTokenValid]

/-- `ensureAccessToken` while a refresh is in flight and the token is
invalid: the caller awaits the in-flight promise and nothing changes. -/
theorem ensureStep_inflight (now : Int) (w : World) (p : Nat)
    (hinv : isAccessTokenValid now w.client = false)
    (hfl : w.client.refreshInFlight = some p) :
    ensureStep now w = (w, some p) := by
  simp [ensureStep, hinv, hfl]

/-- Iterated `ensureAccessToken` calls while a refresh is in flight all
await the same promise and leave the world unchanged. -/
theorem ensureN_inflight (now : Int) (p : Nat) :
    ∀ (m : Nat) (w : World), isAccessTokenValid now w.client = false →
      w.client.refreshInFlight = some p →
      ensureN now m w = (w, List.replicate m (some p))
  | 0, w, _, _ => by simp [ensureN]
  | m + 1, w, hinv, hfl => by
    simp [ensureN, ensureStep_inflight now w p hinv hfl,
      ensureN_inflight now p m w hinv hfl, List.replicate]

/-- C3: refresh-token rotation.  For every successful `refreshAccessToken`
call, if the provider response omits `refresh_token` or carries an empty
one, the previously stored refresh token is unchanged; if it carries a
non-empty one, that value replaces the old one. -/
theorem refreshAccessToken_rotation (now : Int) (s : ClientState)
    (resp : TokenResp) (hsucc : (refreshAccessToken now s resp).2 = none) :
    ((resp.refresh_token = none ∨ resp.refresh_token = some "") →
      (refreshAccessToken now s resp).1.refreshToken = s.refreshToken) ∧
    (∀ t : String, resp.refresh_token = some t → t ≠ "" →
      (refreshAccessToken now s resp).1.refreshToken = t) := by
  by_cases hs : s.refreshToken = ""
  · simp [refreshAccessToken, hs] at hsucc
  · by_cases hok : resp.ok
    · rw [refreshAccessToken_ok_eq now s resp hs hok]
      constructor
      · rintro (h | h) <;> simp [h]
      · intro t ht hne
        simp [ht, hne]
    · rw [Bool.not_eq_true] at hok
      simp [refreshAccessToken, hs, hok] at hsucc

/-- Witness for C3 at a concrete rotating response and a concrete omitting
response. -/
theorem refreshAccessToken_rotation_witness :
    (refreshAccessToken 0 clientTokFx tokRespOmitFx).1.refreshToken =
      clientTokFx.refreshToken ∧
    (refreshAccessToken 0 clientTokFx tokRespRotFx).1.refreshToken =
      "rt2" := by
  constructor
  · exact (refreshAccessToken_rotation 0 clientTokFx tokRespOmitFx
      (by decide)).1 (Or.inl rfl)
  · exact (refreshAccessToken_rotation 0 clientTokFx tokRespRotFx
      (by decide)).2 "rt2" rfl (by decide)

/-- C4: refresh failure atomicity.  Whenever the settled refresh operation
failed, the stored `accessToken`, `expiresAt` and `refreshToken` are
exactly as before the call; the settled outcome delivered to the awaiters
is exactly the refresh call's outcome (and by C1 every concurrent caller
awaits that one promise, so each observes this same error); and
`refreshInFlight` is cleared once the operation settles whether it
succeeded or failed. -/
theorem refreshAccessToken_failure_atomic (now : Int) (w : World)
    (resp : TokenResp) :
    (settleRefresh now resp w).1.client.refreshInFlight = none ∧
    (settleRefresh now resp w).2 = (refreshAccessToken now w.client resp).2 ∧
    ((refreshAccessToken now w.client resp).2.isSome = true →
      (settleRefresh now resp w).1.client.accessToken =
        w.client.accessToken ∧
      (settleRefresh now resp w).1.client.expiresAt = w.client.expiresAt ∧
      (settleRefresh now resp w).1.client.refreshToken =
        w.client.refreshToken) := by
  by_cases hs : w.client.refreshToken = ""
  · simp [settleRefresh, refreshAccessToken, hs]
  · by_cases hok : resp.ok
    · simp [settleRefresh, refreshAccessToken_ok_eq now w.client resp hs hok]
    · rw [Bool.not_eq_true] at hok
      simp [settleRefresh, refreshAccessToken, hs, hok]

/-- Witness for C4 at a concrete failing (HTTP 400) refresh settlement. -/
theorem refreshAccessToken_failure_atomic_witness :
    (settleRefresh 0 tokRespFailFx worldTokFx).1.client.refreshInFlight =
      none ∧
    (settleRefresh 0 tokRespFailFx worldTokFx).1.client.accessToken =
      worldTokFx.client.accessToken ∧
    (settleRefresh 0 tokRespFailFx worldTokFx).1.client.expiresAt =
      worldTokFx.client.expiresAt ∧
    (settleRefresh 0 tokRespFailFx worldTokFx).1.client.refreshToken =
      worldTokFx.client.refreshToken := by
  have h := refreshAccessToken_failure_atomic 0 worldTokFx tokRespFailFx
  exact ⟨h.1, h.2.2 (by decide)⟩

/-- C5: access-token validity window.  `isAccessTokenValid` holds exactly
when the token string is non-empty and `now` is strictly before
`expiresAt - 60000` ms; a successful refresh whose response carries
`expires_in: 3600` yields a token set valid precisely until 3540 seconds
after the refresh, and while it is valid `ensureAccessToken` returns
immediately without issuing any token-endpoint request. -/
theorem isAccessTokenValid_window (now0 : Int) (s : ClientState)
    (resp : TokenResp) (hok : resp.ok = true)
    (hexp : resp.expires_in = .num 3600) (hat : resp.access_token ≠ "")
    (hrt : s.refreshToken ≠ "") :
    (∀ (t : Int) (c : ClientState),
      isAccessTokenValid t c = true ↔
        c.accessToken ≠ "" ∧ t < c.expiresAt - 60000) ∧
    (refreshAccessToken now0 s resp).2 = none ∧
    (∀ t : Int,
      isAccessTokenValid t (refreshAccessToken now0 s resp).1 = true ↔
        t < now0 + 3540000) ∧
    (∀ (w : World) (t : Int), w.client = (refreshAccessToken now0 s resp).1 →
      t < now0 + 3540000 → ensureStep t w = (w, none)) := by
  have heq := refreshAccessToken_ok_eq now0 s resp hrt hok
  have hdef : expiresInOrDefault resp.expires_in = 3600 := by
    simp [hexp, expiresInOrDefault, jsNumber]
  have hwin : ∀ t : Int,
      isAccessTokenValid t (refreshAccessToken now0 s resp).1 = true ↔
        t < now0 + 3540000 := by
    intro t
    rw [heq, isAccessTokenValid_iff]
    simp [hat, hdef]
    omega
  refine ⟨fun t c => isAccessTokenValid_iff t c, by rw [heq], hwin, ?_⟩
  intro w t hw ht
  have hv : isAccessTokenValid t w.client = true := by
    rw [hw]
    exact (hwin t).mpr ht
  simp [ensureStep, hv]

/-- Witness for C5: a refresh at time 0 with `expires_in: 3600` is still
valid at time 3539999 ms. -/
theorem isAccessTokenValid_window_witness :
    (refreshAccessToken 0 clientFx tokRespOmitFx).2 = none ∧
    isAccessTokenValid 3539999 (refreshAccessToken 0 clientFx tokRespOmitFx).1 =
      true := by
  have h := isAccessTokenValid_window 0 clientFx tokRespOmitFx rfl rfl
    (by decide) (by decide)
  exact ⟨h.2.1, (h.2.2.1 3539999).mpr (by decide)⟩

/-- C10: implicit expiry default.  A successful refresh whose response has
no `expires_in` field, or one that converts to `NaN` or `0`, sets the new
expiry to the current time plus 3600 seconds — a well-defined timestamp in
the future, never an immediately expired one. -/
theorem refreshAccessToken_expiry_default (now : Int) (s : ClientState)
    (resp : TokenResp) (hrt : s.refreshToken ≠ "") (hok : resp.ok = true)
    (hexp : jsNumber resp.expires_in = none ∨
      jsNumber resp.expires_in = some 0) :
    (refreshAccessToken now s resp).2 = none ∧
    (refreshAccessToken now s resp).1.expiresAt = now + 3600 * 1000 ∧
    now < (refreshAccessToken now s resp).1.expiresAt := by
  have heq := refreshAccessToken_ok_eq now s resp hrt hok
  have hdef : expiresInOrDefault resp.expires_in = 3600 := by
    rcases hexp with h | h <;> simp [expiresInOrDefault, h]
  rw [heq]
  simp [hdef]

/-- Witness for C10 at a response with a missing `expires_in` field. -/
theorem refreshAccessToken_expiry_default_witness :
    (refreshAccessToken 5 clientTokFx tokRespNoExpFx).2 = none ∧
    (refreshAccessToken 5 clientTokFx tokRespNoExpFx).1.expiresAt =
      5 + 3600 * 1000 ∧
    (5 : Int) < (refreshAccessToken 5 clientTokFx tokRespNoExpFx).1.expiresAt :=
  refreshAccessToken_expiry_default 5 clientTokFx tokRespNoExpFx
    (by decide) rfl (Or.inl rfl)

/-- C1: singleflight refresh.  For `n ≥ 1` calls to `ensureAccessToken`
arriving while the token is invalid and no refresh is in flight, exactly
one token-endpoint request is issued, and every one of the `n` callers
awaits the one promise `w.nextId` — so when that refresh settles
(`settleRefresh`), all of them observe the same outcome: the same new token
set on success, the same error on failure. -/
theorem ensureAccessToken_singleflight (now : Int) (n : Nat) (w : World)
    (hn : 1 ≤ n) (hinv : isAccessTokenValid now w.client = false)
    (hfl : w.client.refreshInFlight = none)
    (hrt : w.client.refreshToken ≠ "") :
    (ensureN now n w).1.exchangeCount = w.exchangeCount + 1 ∧
    (ensureN now n w).1.client.refreshInFlight = some w.nextId ∧
    (ensureN now n w).2 = List.replicate n (some w.nextId) := by
  obtain ⟨m, rfl⟩ : ∃ m, n = m + 1 := ⟨n - 1, by omega⟩
  have hstep : ensureStep now w =
      ({ client := { w.client with refreshInFlight := some w.nextId }
         exchangeCount := w.exchangeCount + 1
         nextId := w.nextId + 1 }, some w.nextId) := by
    simp [ensureStep, hinv, hfl, hrt]
  have hinv1 : isAccessTokenValid now
      ({ w.client with refreshInFlight := some w.nextId }) = false := hinv
  have hrest := ensureN_inflight now w.nextId m
    { client := { w.client with refreshInFlight := some w.nextId }
      exchangeCount := w.exchangeCount + 1
      nextId := w.nextId + 1 } hinv1 rfl
  simp [ensureN, hstep, hrest, List.replicate]

/-- Witness for C1: three concurrent callers on an invalid token issue one
exchange and all await promise 5. -/
theorem ensureAccessToken_singleflight_witness :
    (ensureN 0 3 worldFx).1.exchangeCount = worldFx.exchangeCount + 1 ∧
    (ensureN 0 3 worldFx).1.client.refreshInFlight = some worldFx.nextId ∧
    (ensureN 0 3 worldFx).2 = List.replicate 3 (some worldFx.nextId) :=
  ensureAccessToken_singleflight 0 3 worldFx (by decide) (by decide) rfl
    (by decide)

/-- C2 counterexample: the claim states that after a second consecutive
401 the call fails with an authentication error and no third request is
issued.  On the response script 401, 401, 200 the invoker in fact issues a
third request and returns that response's body successfully — there is no
retry cap in `SpotifyClient.api` (lines 145–148) and no authentication
error type anywhere in the client. -/
theorem api_second_401_issues_third_request :
    (api 0 [resp401, resp401, resp200Fx] [tokRespOmitFx, tokRespOmitFx]
      clientFx).requests = 3 ∧
    (api 0 [resp401, resp401, resp200Fx] [tokRespOmitFx, tokRespOmitFx]
      clientFx).result = .success (some "payload") := by
  decide

/-- C2 amended: every 401 response triggers a forced refresh and a
re-issued request with no retry bound — `k` consecutive 401s (with each
forced refresh succeeding) lead to `k` refreshes and `k + 1` requests, and
the call then succeeds with the final response's body instead of surfacing
an authentication error. -/
theorem api_401_retries_unbounded (now : Int) (n : Nat) (tr : TokenResp)
    (r : ApiResp) (htr : tr.ok = true) (hr : r.status = 200) :
    ∀ s : ClientState, s.refreshToken ≠ "" →
      (api now (List.replicate n resp401 ++ [r])
        (List.replicate n tr) s).requests = n + 1 ∧
      (api now (List.replicate n resp401 ++ [r])
        (List.replicate n tr) s).refreshes = n ∧
      (api now (List.replicate n resp401 ++ [r])
        (List.replicate n tr) s).result = .success r.body := by
  induction n with
  | zero =>
    intro s _
    simp [api, hr]
  | succ m ih =>
    intro s hs
    have heq := refreshAccessToken_ok_eq now s tr hs htr
    have hne := refreshAccessToken_keeps_token_nonempty now s tr hs htr
    rw [refreshAccessToken_ok_eq now s tr hs htr] at hne
    have hrec := ih _ hne
    simp [List.replicate_succ, api, resp401, heq]
    exact ⟨hrec.1, hrec.2.1, hrec.2.2⟩

/-- Witness for C2's amended theorem: two consecutive 401s produce three
requests, two refreshes and a successful result. -/
theorem api_401_retries_unbounded_witness :
    (api 0 (List.replicate 2 resp401 ++ [resp200Fx])
      (List.replicate 2 tokRespOmitFx) clientFx).requests = 2 + 1 ∧
    (api 0 (List.replicate 2 resp401 ++ [resp200Fx])
      (List.replicate 2 tokRespOmitFx) clientFx).refreshes = 2 ∧
    (api 0 (List.replicate 2 resp401 ++ [resp200Fx])
      (List.replicate 2 tokRespOmitFx) clientFx).result =
      .success resp200Fx.body :=
  api_401_retries_unbounded 0 2 tokRespOmitFx resp200Fx rfl rfl clientFx
    (by decide)

/-- C6 counterexample: the claim states the invoker defaults the
`retry-after` value to 1 second when the header is invalid.  For the
non-numeric header value `abc` the computed delay argument is
`Number(abc) = NaN` (propagated through `Math.max`), not 1000 ms: the
scheduled wait is the `NaN` delay, not a one-second default. -/
theorem retryAfter_invalid_not_one_second :
    (api 0 [resp429BadFx, resp200Fx] [] clientFx).waitsMs = [none] ∧
    retryDelayMs (some "abc") = none ∧
    retryDelayMs (some "abc") ≠ some 1000 := by
  decide

/-- C6 amended: on a 429 the invoker schedules a wait and retries instead
of failing: the result is that of the remaining script with one more
request and the computed delay recorded.  The delay is 1000 ms when the
header is absent, 3000 ms for `retry-after: 3`, and in general
`max(1, v) * 1000` ms for a header parsing to `v`; a non-empty
non-numeric header instead yields `NaN` (`none`), with no one-second
fallback. -/
theorem api_429_backoff (now : Int) (r : ApiResp) (rest : List ApiResp)
    (rs : List TokenResp) (s : ClientState) (h429 : r.status = 429) :
    (api now (r :: rest) rs s).result = (api now rest rs s).result ∧
    (api now (r :: rest) rs s).requests = (api now rest rs s).requests + 1 ∧
    (api now (r :: rest) rs s).waitsMs =
      retryDelayMs r.retryAfter :: (api now rest rs s).waitsMs ∧
    retryDelayMs none = some 1000 ∧
    retryDelayMs (some "3") = some 3000 ∧
    (∀ (hdr : String) (v : Int), hdr ≠ "" → jsNumberOfString hdr = some v →
      retryDelayMs (some hdr) = some (max 1 v * 1000)) := by
  refine ⟨?_, ?_, ?_, by decide, by decide, ?_⟩
  · simp [api, h429]
  · simp [api, h429]
  · simp [api, h429]
  · intro hdr v hne hv
    simp [retryDelayMs, hne, hv]

/-- Witness for C6's amended theorem: `retry-after: 3` records a 3000 ms
wait before the retried request. -/
theorem api_429_backoff_witness :
    (api 0 [resp429Fx, resp200Fx] [] clientFx).waitsMs =
      retryDelayMs resp429Fx.retryAfter ::
        (api 0 [resp200Fx] [] clientFx).waitsMs ∧
    retryDelayMs (some "3") = some 3000 ∧
    retryDelayMs none = some 1000 := by
  have h := api_429_backoff 0 resp429Fx [resp200Fx] [] clientFx rfl
  exact ⟨h.2.2.1, h.2.2.2.2.1, h.2.2.2.1⟩

/-- Hex encoding yields two characters per byte. -/
theorem bytesToHexChars_length (bs : List Nat) :
    (bytesToHexChars bs).length = 2 * bs.length := by
  induction bs with
  | nil => simp [bytesToHexChars]
  | cons b bs ih =>
    simp [bytesToHexChars, ih]
    omega

/-- Hex encoding of a byte buffer has twice the buffer's length. -/
theorem bytesToHex_length (bs : List Nat) :
    (bytesToHex bs).length = 2 * bs.length := by
  simpa [bytesToHex, String.length] using bytesToHexChars_length bs

/-- C7 counterexample: the claim states the authorization URL produced by
`oauthStart` carries `code_challenge_method=S256` and a `code_challenge`
derived from a code verifier.  A successful `oauthStart` produces no such
parameters — the function generates no PKCE material at all (main.js lines
356–387). -/
theorem oauthStart_no_pkce :
    (oauthStart 0 bytesAFx "cid" "sec" "https://host:8888/callback"
      "/callback").toOption.isSome = true ∧
    (oauthStartParams (oauthStart 0 bytesAFx "cid" "sec"
      "https://host:8888/callback" "/callback")).lookup
        "code_challenge_method" = none ∧
    (oauthStartParams (oauthStart 0 bytesAFx "cid" "sec"
      "https://host:8888/callback" "/callback")).lookup
        "code_challenge" = none := by
  decide

/-- C7 amended: a successful `oauthStart` registers a pending flow whose
`state` is the hex encoding of the 16 fresh random bytes (32 characters),
and the authorization URL query contains `response_type=code`, the client
id, the three fixed playback scopes and the generated `state` — but no
PKCE parameters: no `code_challenge_method`, no `code_challenge`, and no
code verifier exists anywhere in the flow (plain authorization-code with
client secret). -/
theorem oauthStart_authorization_url (now : Int) (bytes : List Nat)
    (cid sec ruri cpath : String) (hb : bytes.length = 16) (hc : cid ≠ "")
    (hsec : sec ≠ "") (hr : ruri ≠ "") :
    (oauthStart now bytes cid sec ruri cpath).toOption.isSome = true ∧
    (oauthStartParams (oauthStart now bytes cid sec ruri cpath)).lookup
      "response_type" = some "code" ∧
    (oauthStartParams (oauthStart now bytes cid sec ruri cpath)).lookup
      "client_id" = some cid ∧
    (oauthStartParams (oauthStart now bytes cid sec ruri cpath)).lookup
      "scope" = some ("user-read-playback-state " ++
        "user-read-currently-playing user-modify-playback-state") ∧
    (oauthStartParams (oauthStart now bytes cid sec ruri cpath)).lookup
      "state" = some (bytesToHex bytes) ∧
    (oauthStartParams (oauthStart now bytes cid sec ruri cpath)).lookup
      "code_challenge_method" = none ∧
    (oauthStartParams (oauthStart now bytes cid sec ruri cpath)).lookup
      "code_challenge" = none ∧
    oauthStartFlow (oauthStart now bytes cid sec ruri cpath) =
      some { state := bytesToHex bytes, expiresAt := now + 600000
             clientId := cid, clientSecret := sec, redirectUri := ruri
             callbackPath := cpath } ∧
    (bytesToHex bytes).length = 32 := by
  have hguard : ¬(cid = "" ∨ sec = "") := by
    simp [hc, hsec]
  have heq : oauthStart now bytes cid sec ruri cpath =
      .ok ({ state := bytesToHex bytes, expiresAt := now + 600000
             clientId := cid, clientSecret := sec, redirectUri := ruri
             callbackPath := cpath },
        [("response_type", "code"),
         ("client_id", cid),
         ("redirect_uri", ruri),
         ("scope", String.intercalate " " oauthScopes),
         ("state", bytesToHex bytes),
         ("show_dialog", "true")]) := by
    unfold oauthStart
    rw [if_neg hguard, if_neg hr]
    norm_num
  rw [heq]
  refine ⟨rfl, rfl, rfl, ?_, rfl, rfl, rfl, rfl, ?_⟩
  · rfl
  · rw [bytesToHex_length, hb]

/-- Witness for C7's amended theorem at a concrete configuration. -/
theorem oauthStart_authorization_url_witness :
    (oauthStart 0 bytesAFx "cid" "sec" "https://host:8888/callback"
      "/callback").toOption.isSome = true ∧
    (oauthStartParams (oauthStart 0 bytesAFx "cid" "sec"
      "https://host:8888/callback" "/callback")).lookup "state" =
      some (bytesToHex bytesAFx) ∧
    (bytesToHex bytesAFx).length = 32 := by
  have h := oauthStart_authorization_url 0 bytesAFx "cid" "sec"
    "https://host:8888/callback" "/callback" (by decide) (by decide)
    (by decide) (by decide)
  exact ⟨h.1, h.2.2.2.2.1, h.2.2.2.2.2.2.2.2⟩

/-- A 32-character hex state is not the empty string. -/
theorem bytesToHex_ne_empty (bs : List Nat) (hb : bs.length = 16) :
    bytesToHex bs ≠ "" := by
  intro h0
  have hlen := bytesToHex_length bs
  rw [h0, hb] at hlen
  simp [String.length] at hlen

/-- C8 counterexample: the claim states that after two `oauthStart` calls
both states remain registered and a callback presenting the first state
still succeeds within its TTL.  In fact `this.oauthFlow` is a single slot:
the second start overwrites the first, and a callback presenting the first
state at t = 2000 ms (well inside its 10-minute TTL) fails the state
check. -/
theorem second_oauthStart_invalidates_first_state :
    bytesToHex bytesAFx ≠ bytesToHex bytesBFx ∧
    flowAfterTwoStartsFx =
      some { state := bytesToHex bytesBFx, expiresAt := 601000
             clientId := "cid", clientSecret := "sec"
             redirectUri := "https://host:8888/callback"
             callbackPath := "/callback" } ∧
    (2000 : Int) < 0 + 600000 ∧
    (handleOAuthCallback 2000 flowAfterTwoStartsFx none (some "c")
      (some (bytesToHex bytesAFx))).1 = .stateMismatch := by
  decide

/-- C8 amended: `oauthStart` keeps a single pending authorization — a
second call overwrites the first, so after two starts only the second
state is consumable: a callback presenting the second state (before its
expiry) passes all checks, while one presenting the first, distinct state
fails with a state mismatch even though its own TTL has not elapsed. -/
theorem oauthStart_single_pending_flow (now1 now2 nowCb : Int)
    (bA bB : List Nat) (cid sec ruri cpath code : String) (hc : cid ≠ "")
    (hsec : sec ≠ "") (hr : ruri ≠ "") (hlenA : bA.length = 16)
    (hlenB : bB.length = 16)
    (hstates : bytesToHex bA ≠ bytesToHex bB) (hcode : code ≠ "")
    (httl : nowCb ≤ now2 + 600000) :
    oauthFlowAfterStart
        (oauthFlowAfterStart none (oauthStart now1 bA cid sec ruri cpath))
        (oauthStart now2 bB cid sec ruri cpath) =
      some { state := bytesToHex bB, expiresAt := now2 + 600000
             clientId := cid, clientSecret := sec, redirectUri := ruri
             callbackPath := cpath } ∧
    (handleOAuthCallback nowCb
      (oauthFlowAfterStart
        (oauthFlowAfterStart none (oauthStart now1 bA cid sec ruri cpath))
        (oauthStart now2 bB cid sec ruri cpath))
      none (some code) (some (bytesToHex bB))).1 = .proceed ∧
    (handleOAuthCallback nowCb
      (oauthFlowAfterStart
        (oauthFlowAfterStart none (oauthStart now1 bA cid sec ruri cpath))
        (oauthStart now2 bB cid sec ruri cpath))
      none (some code) (some (bytesToHex bA))).1 = .stateMismatch := by
  have hguard : ¬(cid = "" ∨ sec = "") := by
    simp [hc, hsec]
  have heq2 : oauthStart now2 bB cid sec ruri cpath =
      .ok ({ state := bytesToHex bB, expiresAt := now2 + 600000
             clientId := cid, clientSecret := sec, redirectUri := ruri
             callbackPath := cpath },
        [("response_type", "code"),
         ("client_id", cid),
         ("redirect_uri", ruri),
         ("scope", String.intercalate " " oauthScopes),
         ("state", bytesToHex bB),
         ("show_dialog", "true")]) := by
    unfold oauthStart
    rw [if_neg hguard, if_neg hr]
    norm_num
  have hfl : oauthFlowAfterStart
      (oauthFlowAfterStart none (oauthStart now1 bA cid sec ruri cpath))
      (oauthStart now2 bB cid sec ruri cpath) =
      some { state := bytesToHex bB, expiresAt := now2 + 600000
             clientId := cid, clientSecret := sec, redirectUri := ruri
             callbackPath := cpath } := by
    rw [heq2]
    rfl
  have hstate : bytesToHex bB ≠ "" := bytesToHex_ne_empty bB hlenB
  have hexpiry : ¬(nowCb > now2 + 600000) := not_lt.mpr httl
  refine ⟨hfl, ?_, ?_⟩
  · rw [hfl]
    simp [handleOAuthCallback, strTruthy, hcode, hstate, hexpiry]
  · rw [hfl]
    simp [handleOAuthCallback, strTruthy, hcode, hstate, hexpiry, hstates,
      bytesToHex_ne_empty bA hlenA]

/-- Witness for C8's amended theorem at the concrete two-start fixture. -/
theorem oauthStart_single_pending_flow_witness :
    oauthFlowAfterStart
        (oauthFlowAfterStart none
          (oauthStart 0 bytesAFx "cid" "sec"
            "https://host:8888/callback" "/callback"))
        (oauthStart 1000 bytesBFx "cid" "sec"
          "https://host:8888/callback" "/callback") =
      some { state := bytesToHex bytesBFx, expiresAt := 1000 + 600000
             clientId := "cid", clientSecret := "sec"
             redirectUri := "https://host:8888/callback"
             callbackPath := "/callback" } ∧
    (handleOAuthCallback 2000
      (oauthFlowAfterStart
        (oauthFlowAfterStart none
          (oauthStart 0 bytesAFx "cid" "sec"
            "https://host:8888/callback" "/callback"))
        (oauthStart 1000 bytesBFx "cid" "sec"
          "https://host:8888/callback" "/callback"))
      none (some "c") (some (bytesToHex bytesBFx))).1 = .proceed ∧
    (handleOAuthCallback 2000
      (oauthFlowAfterStart
        (oauthFlowAfterStart none
          (oauthStart 0 bytesAFx "cid" "sec"
            "https://host:8888/callback" "/callback"))
        (oauthStart 1000 bytesBFx "cid" "sec"
          "https://host:8888/callback" "/callback"))
      none (some "c") (some (bytesToHex bytesAFx))).1 = .stateMismatch :=
  oauthStart_single_pending_flow 0 1000 2000 bytesAFx bytesBFx "cid" "sec"
    "https://host:8888/callback" "/callback" "c" (by decide) (by decide)
    (by decide) (by decide) (by decide) (by decide) (by decide) (by decide)

/-- C9 counterexample: the claim states any request other than a GET on
the callback path is answered with a 200 informational page.  A POST is in
fact answered with 405 `Method Not Allowed` (main.js lines 602–606), not
200 — though the pending flow is indeed untouched. -/
theorem non_get_request_gets_405 :
    handleOAuthRequest 0 (some "/callback") flowAfterTwoStartsFx
        (some "POST") "/other" none none none =
      (.methodNotAllowed, some 405, flowAfterTwoStartsFx) ∧
    (some 405 : Option Nat) ≠ some 200 := by
  decide

/-- C9 amended: a request whose normalised method is not GET is answered
with 405 `Method Not Allowed`; a GET on any path other than the configured
callback path is answered with the neutral informational page and status
200; in both cases the pending-authorization slot is untouched. -/
theorem handleOAuthRequest_dispatch (now : Int) (cbp : Option String)
    (flow? : Option OAuthFlow) (method : Option String) (path : String)
    (e c st : Option String) :
    (normalizeMethod method ≠ "GET" →
      handleOAuthRequest now cbp flow? method path e c st =
        (.methodNotAllowed, some 405, flow?)) ∧
    (normalizeMethod method = "GET" → path ≠ effectiveCbPath cbp →
      handleOAuthRequest now cbp flow? method path e c st =
        (.infoPage, some 200, flow?)) := by
  constructor
  · intro h
    simp [handleOAuthRequest, h]
  · intro h hp
    simp [handleOAuthRequest, h, hp]

/-- Witness for C9's amended theorem: a POST and an off-path GET. -/
theorem handleOAuthRequest_dispatch_witness :
    handleOAuthRequest 0 (some "/callback") flowAfterTwoStartsFx
        (some "POST") "/callback" none none none =
      (.methodNotAllowed, some 405, flowAfterTwoStartsFx) ∧
    handleOAuthRequest 0 (some "/callback") flowAfterTwoStartsFx
        (some "GET") "/other" none none none =
      (.infoPage, some 200, flowAfterTwoStartsFx) := by
  have h1 := handleOAuthRequest_dispatch 0 (some "/callback")
    flowAfterTwoStartsFx (some "POST") "/callback" none none none
  have h2 := handleOAuthRequest_dispatch 0 (some "/callback")
    flowAfterTwoStartsFx (some "GET") "/other" none none none
  exact ⟨h1.1 (by decide), h2.2 (by decide) (by decide)⟩

end SpotifyPremium
